import Mathlib

/-!
Verification of the HelloTriangle-DX12 repository against its specification.

The definitions below are a shallow embedding of the program's core logic,
translated from the source (the complete variant `src/unnamed/part_000`;
line numbers cited in doc comments refer to that file):
adapter selection, the frame loop's fence protocol, the per-frame recorded
command stream, the static-buffer uploads, the shader-file reader, and the
constant-buffer size formula.
-/

namespace HelloTriangle

/-! ### Device selection (part_000 lines 84-112)

An adapter, as observed through `GetDesc1` and `D3D12CreateDevice`:
whether `desc.Flags` has `DXGI_ADAPTER_FLAG_SOFTWARE` set, and whether
`D3D12CreateDevice(adapter, D3D_FEATURE_LEVEL_12_0, ...)` succeeds. -/

structure Adapter where
  isSoftware : Bool
  supportsFeatureLevel12 : Bool
deriving DecidableEq

/-- The adapter-enumeration `while` loop of `main` (part_000 lines 88-108),
with an explicit fuel bound since the C++ loop has no a-priori termination
measure.  State is `adapter_index`.  Per iteration: `EnumAdapters1` at
`adapter_index` (out of range models `DXGI_ERROR_NOT_FOUND`, ending the loop
with `device == nullptr`, i.e. `some none`); a software adapter hits
`continue`, which re-enters the loop body with `adapter_index` unchanged;
a hardware adapter that supports feature level 12_0 breaks with a device
(`some (some idx)`); otherwise `adapter_index` is incremented.  `none`
means the fuel ran out with the loop still running. -/
def select_device (adapters : List Adapter) : Nat → Nat → Option (Option Nat)
  | 0, _ => none
  | fuel + 1, idx =>
    match adapters[idx]? with
    | none => some none
    | some a =>
      if a.isSoftware then
        select_device adapters fuel idx
      else if a.supportsFeatureLevel12 then
        some (some idx)
      else
        select_device adapters fuel (idx + 1)

/-! ### Constant-buffer size formula (part_000 lines 497-522) -/

/-- The size expression `(sizeof(const_buffer_data_struct) | 0xFF) + 1`
used for the constant-buffer resource `Width` (part_000 line 500) and for
the constant-buffer view `SizeInBytes` (part_000 line 521). -/
def alignConstBufferSize (s : Nat) : Nat := (s ||| 0xFF) + 1

/-- `sizeof(const_buffer_data_struct)`: one `glm::vec3`, three 32-bit
floats (part_000 lines 469-471). -/
def const_buffer_data_struct_size : Nat := 12

/-- `upload_buffer_desc.Width` for the constant buffer (part_000 line 500). -/
def const_buffer_resource_size : Nat :=
  alignConstBufferSize const_buffer_data_struct_size

/-- `const_buffer_view_desc.SizeInBytes` (part_000 line 521). -/
def const_buffer_view_size : Nat :=
  alignConstBufferSize const_buffer_data_struct_size

/-! ### Frame loop fence protocol (part_000 lines 152-160, 640-719)

`backbuffer_count = 2` (line 44).  Two fences are created with initial
value 0 and `fence_values[i] = 0` (lines 155-160).  Each iteration of the
main loop ends with (lines 702-718):

  Signal(fences[frame_index], fence_values[frame_index]);
  if (fences[frame_index]->GetCompletedValue() < fence_values[frame_index])
      { SetEventOnCompletion; WaitForSingleObject }
  fence_values[frame_index]++;
  frame_index = swapchain->GetCurrentBackBufferIndex();
  ...
  command_allocator->Reset(); command_list->Reset(...);

The swapchain is modelled as an oracle `q : Nat → Fin 2`: `q 0` is the
initial `GetCurrentBackBufferIndex()` (line 221) and `q (k+1)` the value
returned by the re-query at the end of iteration `k` (line 710). -/

/-- CPU-side state carried across frame-loop iterations: the
`fence_values` array and `frame_index`. -/
structure FrameState where
  fence_values : Fin 2 → Nat
  frame_index : Fin 2

/-- State before the first iteration: `fence_values` all 0 (line 159),
`frame_index` from the initial query (line 221). -/
def initialState (q : Nat → Fin 2) : FrameState :=
  { fence_values := fun _ => 0, frame_index := q 0 }

/-- Effect of one iteration's tail on the CPU state:
`fence_values[frame_index]++` (line 708) then
`frame_index = GetCurrentBackBufferIndex()` (line 710), the latter
supplied by the oracle. -/
def frameStep (newIndex : Fin 2) (s : FrameState) : FrameState :=
  { fence_values := fun i =>
      if i = s.frame_index then s.fence_values i + 1 else s.fence_values i
    frame_index := newIndex }

/-- CPU state at the start of iteration `k` (0-based). -/
def stateAt (q : Nat → Fin 2) : Nat → FrameState
  | 0 => initialState q
  | k + 1 => frameStep (q (k + 1)) (stateAt q k)

/-- The fence slot iteration `k` signals and waits on:
`frame_index` during iteration `k`'s body. -/
def slotUsed (q : Nat → Fin 2) (k : Nat) : Fin 2 :=
  (stateAt q k).frame_index

/-- The value passed to `Signal(fences[frame_index], fence_values[frame_index])`
at iteration `k` (line 702): the pre-increment counter. -/
def signalValue (q : Nat → Fin 2) (k : Nat) : Nat :=
  (stateAt q k).fence_values (slotUsed q k)

/-- `GetCompletedValue()` of fence `i` once the GPU has fully processed the
queue submissions of the first `g` iterations: the fence starts at its
creation value 0 and thereafter holds the value of the last processed
`Signal` directed at it. -/
def completedValue (q : Nat → Fin 2) (g : Nat) (i : Fin 2) : Nat :=
  (List.range g).foldl
    (fun acc k => if slotUsed q k = i then signalValue q k else acc) 0

/-- The wait condition checked at line 704 of iteration `k`, when the GPU
has so far processed the submissions of the first `g` iterations:
`GetCompletedValue() < fence_values[frame_index]`.  When false, the CPU
proceeds straight to the allocator/list `Reset` without blocking. -/
def cpuMustWait (q : Nat → Fin 2) (g k : Nat) : Bool :=
  decide (completedValue q g (slotUsed q k) < signalValue q k)

/-- The GPU has retired iteration `k`'s submission (command list executed
and its `Signal` processed) exactly when it has processed at least `k + 1`
iterations of the queue. -/
def gpuHasRetired (g k : Nat) : Prop := k < g

instance (g k : Nat) : Decidable (gpuHasRetired g k) :=
  inferInstanceAs (Decidable (k < g))

/-- An alternating swapchain oracle, the usual behaviour of a
double-buffered FLIP_DISCARD swapchain. -/
def altQ (k : Nat) : Fin 2 := ⟨k % 2, Nat.mod_lt _ (by decide)⟩

/-! ### Commands recorded per frame (part_000 lines 641-692) -/

/-- Logical resource states of a swap image as used by the two
`D3D12_RESOURCE_BARRIER`s (lines 655-662 and 682-689). -/
inductive ResState where
  | present
  | renderTarget
deriving DecidableEq

/-- The command-list calls recorded inside one frame-loop iteration.
Barriers carry the index of the swap image `render_targets[...]` they
transition and their before/after states; the draw carries the five
arguments of `DrawIndexedInstanced`. -/
inductive Cmd where
  | setGraphicsRootSignature
  | setDescriptorHeaps
  | setGraphicsRootDescriptorTable
  | resourceBarrier (target : Fin 2) (stateBefore stateAfter : ResState)
  | omSetRenderTargets (rtv : Fin 2)
  | rsSetViewports
  | rsSetScissorRects
  | clearRenderTargetView (rtv : Fin 2)
  | iaSetPrimitiveTopology
  | iaSetVertexBuffers
  | iaSetIndexBuffer
  | drawIndexedInstanced (indexCount instanceCount startIndex : Nat)
      (baseVertex : Int) (startInstance : Nat)
deriving DecidableEq

/-- The command stream recorded by one iteration of the main loop whose
`frame_index` is `fi`, in source order (part_000 lines 644-689; `Close`
at line 692 ends recording and `Present` follows at line 699). -/
def recordedFrame (fi : Fin 2) : List Cmd :=
  [ Cmd.setGraphicsRootSignature,
    Cmd.setDescriptorHeaps,
    Cmd.setGraphicsRootDescriptorTable,
    Cmd.resourceBarrier fi ResState.present ResState.renderTarget,
    Cmd.omSetRenderTargets fi,
    Cmd.rsSetViewports,
    Cmd.rsSetScissorRects,
    Cmd.clearRenderTargetView fi,
    Cmd.iaSetPrimitiveTopology,
    Cmd.iaSetVertexBuffers,
    Cmd.iaSetIndexBuffer,
    Cmd.drawIndexedInstanced 3 1 0 0 0,
    Cmd.resourceBarrier fi ResState.renderTarget ResState.present ]

/-- Whether a command is a `ResourceBarrier`. -/
def isBarrier : Cmd → Bool
  | Cmd.resourceBarrier _ _ _ => true
  | _ => false

/-- Whether a command is a `ClearRenderTargetView`. -/
def isClear : Cmd → Bool
  | Cmd.clearRenderTargetView _ => true
  | _ => false

/-- Whether a command is a `DrawIndexedInstanced`. -/
def isDraw : Cmd → Bool
  | Cmd.drawIndexedInstanced _ _ _ _ _ => true
  | _ => false

/-! ### Static buffer uploads (part_000 lines 344-531)

Mapped upload-heap memory is modelled as a byte array per committed
resource; `memcpy_s` copies `count` bytes from the source into the start
of the destination when `count` does not exceed the stated destination
size (all calls in the source satisfy this; the error branch zeroes the
destination, as the CRT constraint handler does). -/

/-- `memcpy_s(dest, destSz, src, count)` acting on the destination bytes. -/
def memcpyS (dest : List Nat) (destSz : Nat) (src : List Nat)
    (count : Nat) : List Nat :=
  if count ≤ destSz then src.take count ++ dest.drop count
  else List.replicate dest.length 0

/-- The set of committed upload-heap resources, in creation order; each is
its current byte contents. -/
abbrev Store := List (List Nat)

/-- `CreateCommittedResource` of a buffer of `size` bytes on the upload
heap: a fresh zero-initialised allocation appended to the store. -/
def createCommittedResource (st : Store) (size : Nat) : Store :=
  st ++ [List.replicate size 0]

/-- `Map` / `memcpy_s` / `Unmap` on resource `r`: replace its contents by
the result of the copy. -/
def writeResource (st : Store) (r : Nat) (destSz : Nat) (src : List Nat)
    (count : Nat) : Store :=
  List.set st r (memcpyS ((st : List (List Nat)).getD r []) destSz src count)

/-- Read the current bytes of resource `r` (a CPU read back through the
still-mapped or re-mapped range, before any GPU write). -/
def readResource (st : Store) (r : Nat) : List Nat :=
  (st : List (List Nat)).getD r []

/-- Identifies which CPU-side array a `memcpy_s` reads from. -/
inductive DataSource where
  | triangleVerts
  | triangleIndices
  | constBufferData
deriving DecidableEq

/-- One startup upload: the destination resource `Width`, the
destination-size argument passed to `memcpy_s`, the array named as the
copy source, and the count argument. -/
structure Upload where
  destResourceSize : Nat
  destSizeArg : Nat
  source : DataSource
  copyCount : Nat
deriving DecidableEq

/-- `sizeof(Vertex)`: two `glm::vec3` fields (part_000 lines 345-348). -/
def vertexSize : Nat := 24

/-- `sizeof(triangle_verts)`: three `Vertex` entries (lines 351-355). -/
def triangle_verts_size : Nat := 3 * vertexSize

/-- `triangle_indices`: the values of the `uint32_t` array at
part_000 lines 356-360. -/
def triangle_indices : List Nat := [0, 1, 2]

/-- `sizeof(triangle_indices)`: three `uint32_t` entries. -/
def triangle_indices_size : Nat := 4 * triangle_indices.length

/-- Vertex-buffer upload (lines 382-403): resource `Width` is
`sizeof(triangle_verts)` and
`memcpy_s(vertex_data_begin, sizeof(triangle_verts), triangle_verts,
sizeof(triangle_verts))`. -/
def vertexUpload : Upload :=
  { destResourceSize := triangle_verts_size
    destSizeArg := triangle_verts_size
    source := DataSource.triangleVerts
    copyCount := triangle_verts_size }

/-- Index-buffer upload (lines 432-453): resource `Width` is
`sizeof(triangle_indices)` and
`memcpy_s(index_data_begin, sizeof(triangle_indices), triangle_indices,
sizeof(triangle_indices))`. -/
def indexUpload : Upload :=
  { destResourceSize := triangle_indices_size
    destSizeArg := triangle_indices_size
    source := DataSource.triangleIndices
    copyCount := triangle_indices_size }

/-- Constant-buffer upload (lines 497-530): resource `Width` is
`(sizeof(const_buffer_data_struct) | 0xFF) + 1`, but line 529 performs
`memcpy_s(const_data_begin, sizeof(triangle_indices), triangle_indices,
sizeof(triangle_indices))`. -/
def constUpload : Upload :=
  { destResourceSize := const_buffer_resource_size
    destSizeArg := triangle_indices_size
    source := DataSource.triangleIndices
    copyCount := triangle_indices_size }

/-! ### The bound index buffer (part_000 lines 450-460, 676) -/

/-- Little-endian byte encoding of a `uint32_t` value. -/
def u32le (x : Nat) : List Nat :=
  [x % 256, x / 256 % 256, x / 65536 % 256, x / 16777216 % 256]

/-- The bytes of the `triangle_indices` array as laid out in memory. -/
def index_data_bytes : List Nat :=
  (triangle_indices.map u32le).flatten

/-- Contents of the index-buffer resource after its upload: a fresh
12-byte committed resource written by
`memcpy_s(index_data_begin, 12, triangle_indices, 12)` (line 452). -/
def index_buffer_store : List Nat :=
  memcpyS (List.replicate triangle_indices_size 0) triangle_indices_size
    index_data_bytes triangle_indices_size

/-- Decode a byte array as consecutive little-endian `uint32_t` values,
the interpretation fixed by `DXGI_FORMAT_R32_UINT` in the index buffer
view (line 459). -/
def decodeU32 : List Nat → List Nat
  | b0 :: b1 :: b2 :: b3 :: rest =>
      (b0 + 256 * b1 + 65536 * b2 + 16777216 * b3) :: decodeU32 rest
  | _ => []

/-- The `uint32_t` values the bound index buffer holds at draw time. -/
def boundIndexValues : List Nat := decodeU32 index_buffer_store

/-! ### Shader bytecode loading (part_000 lines 538-553, 729-768)
and the pipeline-construction call site (lines 627-632) -/

/-- Result of `read_file`: the out-parameters `size_bytes` and `data`
(`none` models `nullptr`), plus whether a diagnostic was printed. -/
structure ReadFileResult where
  size_bytes : Nat
  data : Option (List Nat)
  diagnostic : Bool
deriving DecidableEq

/-- `read_file(path, size_bytes, data, silent)` (part_000 lines 729-768).
`contents` is what the filesystem holds at `path` (`none`: the stream
fails to open).  A missing file prints an error (unless `silent`) and
returns `size_bytes = 0`, `data = nullptr`; an empty file computes
`size = 0`, finds the read-back buffer empty, prints the same error and
also returns `size_bytes = 0`, `data = nullptr`; otherwise the file's
bytes are copied into the allocation and their count returned.  The
function always returns (no abort). -/
def read_file (contents : Option (List Nat)) (silent : Bool) :
    ReadFileResult :=
  match contents with
  | none => { size_bytes := 0, data := none, diagnostic := !silent }
  | some bytes =>
    if bytes.length = 0 then
      { size_bytes := 0, data := none, diagnostic := !silent }
    else
      { size_bytes := bytes.length, data := some bytes, diagnostic := false }

/-- The pipeline-construction call site (part_000 lines 627-632):
`throw_if_failed(CreateGraphicsPipelineState(...))` inside a `try` whose
`catch` prints a diagnostic and falls through.  Given whether the API
call succeeded, returns (process aborted here, diagnostic printed). -/
def pipelineConstructionSite (succeeded : Bool) : Bool × Bool :=
  if succeeded then (false, false) else (false, true)

/-! ## Theorems -/

lemma lor_255_eq (s : Nat) : s ||| 255 = 256 * (s / 256) + 255 := by
  have h256 : (256 : Nat) = 2 ^ 8 := by norm_num
  have hr : s % 256 < 256 := Nat.mod_lt _ (by norm_num)
  have hsplit : s = 256 * (s / 256) + s % 256 := (Nat.div_add_mod s 256).symm
  have h1 : 256 * (s / 256) + s % 256 = 256 * (s / 256) ||| s % 256 := by
    rw [h256]
    exact Nat.mul_add_lt_is_or (h256 ▸ hr) _
  have h2 : (s % 256) ||| 255 = 255 := by
    have hlt : (s % 256) ||| 255 < 256 := by
      rw [h256]
      exact Nat.or_lt_two_pow (h256 ▸ hr) (by norm_num)
    have hge : 255 ≤ (s % 256) ||| 255 := by
      apply Nat.le_of_testBit
      intro i hi
      rw [Nat.testBit_or, hi, Bool.or_true]
    omega
  have h3 : 256 * (s / 256) + 255 = 256 * (s / 256) ||| 255 := by
    rw [h256]
    exact Nat.mul_add_lt_is_or (by norm_num) _
  calc s ||| 255 = (256 * (s / 256) ||| s % 256) ||| 255 := by
        rw [← h1, ← hsplit]
    _ = 256 * (s / 256) ||| ((s % 256) ||| 255) := Nat.or_assoc _ _ _
    _ = 256 * (s / 256) ||| 255 := by rw [h2]
    _ = 256 * (s / 256) + 255 := h3.symm

/-- Claim C10: for every non-negative integer `s`, the constant-buffer
allocation size `(s | 0xFF) + 1` is a positive multiple of 256 strictly
greater than (hence at least) `s`; and since both the constant-buffer
resource size and the constant-buffer-view size are this formula applied
to `sizeof(const_buffer_data_struct)`, the view size equals the resource
size. -/
theorem const_buffer_size_alignment (s : Nat) :
    0 < alignConstBufferSize s ∧ 256 ∣ alignConstBufferSize s ∧
      s < alignConstBufferSize s ∧
      const_buffer_view_size = const_buffer_resource_size := by
  have h := lor_255_eq s
  have hub : s ≤ s ||| 255 := by
    have := Nat.div_add_mod s 256
    have hr : s % 256 < 256 := Nat.mod_lt _ (by norm_num)
    omega
  refine ⟨by simp [alignConstBufferSize], ?_, ?_, rfl⟩
  · refine ⟨s / 256 + 1, ?_⟩
    unfold alignConstBufferSize
    omega
  · unfold alignConstBufferSize
    omega

/-- Claim C3: the adapter-selection loop is claimed to skip software
adapters and return a device for the first capable hardware adapter in
enumeration order.  In the code the software-adapter branch executes
`continue` without incrementing `adapter_index` (and without releasing
the adapter), so on any enumeration whose first adapter is software the
loop re-reads that same adapter forever: it neither returns a device for
the capable hardware adapter that follows, nor fails — for every fuel
bound the loop is still running. -/
theorem software_adapter_loops_forever :
    ∀ fuel : Nat,
      select_device
        [{ isSoftware := true, supportsFeatureLevel12 := true },
         { isSoftware := false, supportsFeatureLevel12 := true }] fuel 0 =
        none := by
  intro fuel
  induction fuel with
  | zero => rfl
  | succ n ih => simpa [select_device] using ih

/-- Claim C2: the spec states the queue signal after each submission
carries `last_value[i] + 1` and that value 0 is never signaled.  The code
(part_000 line 702 with line 708's post-increment and line 159's zero
initialisation) signals the pre-increment counter: the very first
iteration signals value 0 for every swapchain oracle, the second
iteration (first use of the other slot under the alternating oracle)
also signals 0, and only a slot's second use signals 1. -/
theorem first_signal_value_zero :
    (∀ q : Nat → Fin 2, signalValue q 0 = 0) ∧
      signalValue altQ 1 = 0 ∧ signalValue altQ 2 = 1 := by
  refine ⟨fun q => rfl, by decide, by decide⟩

/-- Claim C1: the spec states the CPU always waits before reusing a
slot's command allocator/buffer.  On the first use of a slot the value
signaled (0) equals the fence's creation value, so with a GPU that has
processed nothing (`g = 0`) the check at line 704 already sees
`GetCompletedValue() = 0 ≥ 0` and the CPU proceeds to
`command_allocator->Reset()` without waiting, although the slot's
submission is still executing — begin_recording is permitted on an
unretired slot.  (From a slot's second use onward the check does block:
third conjunct, iteration 2 with only iteration 0 processed.) -/
theorem first_slot_reuse_unsynchronized :
    cpuMustWait altQ 0 0 = false ∧ ¬ gpuHasRetired 0 0 ∧
      cpuMustWait altQ 1 2 = true := by
  refine ⟨by decide, by decide, by decide⟩

/-- Claim C8: the swap-image index used by each frame-loop iteration is
exactly the value most recently returned by
`swapchain->GetCurrentBackBufferIndex()` — the initial query for
iteration 0 and the re-query at the end of the previous iteration
otherwise — and it is not computed arithmetically: for a constant oracle
the index used differs from increment-mod-2 of the previous index. -/
theorem frame_index_from_query :
    (∀ (q : Nat → Fin 2) (k : Nat), slotUsed q k = q k) ∧
      ∃ q : Nat → Fin 2,
        (slotUsed q 1 : Nat) ≠ ((slotUsed q 0 : Nat) + 1) % 2 := by
  constructor
  · intro q k
    cases k with
    | zero => rfl
    | succ n => rfl
  · exact ⟨fun _ => 0, by decide⟩

/-- Claim C4: in every recorded frame the barriers are exactly one
`Presentable -> RenderTarget` transition and one
`RenderTarget -> Presentable` transition, both on the currently-indexed
swap image `fi` (the filter equality lists every barrier in the frame,
so no other image receives one); the first precedes the clear, the clear
precedes the draw, and the draw precedes the second barrier, which is
recorded before `Close`/`Present`. -/
theorem frame_barrier_discipline :
    ∀ fi : Fin 2,
      (recordedFrame fi).filter isBarrier =
        [Cmd.resourceBarrier fi ResState.present ResState.renderTarget,
         Cmd.resourceBarrier fi ResState.renderTarget ResState.present] ∧
      (recordedFrame fi).findIdx
          (fun c =>
            c == Cmd.resourceBarrier fi ResState.present ResState.renderTarget) <
        (recordedFrame fi).findIdx isClear ∧
      (recordedFrame fi).findIdx isClear < (recordedFrame fi).findIdx isDraw ∧
      (recordedFrame fi).findIdx isDraw <
        (recordedFrame fi).findIdx
          (fun c =>
            c == Cmd.resourceBarrier fi ResState.renderTarget ResState.present) := by
  decide

/-- Claim C6: each recorded frame issues exactly one indexed draw,
`DrawIndexedInstanced(3, 1, 0, 0, 0)` — index count 3, instance count 1,
start index 0 — and the index buffer bound for that draw, read back as
the `R32_UINT` values of the uploaded `triangle_indices` bytes, contains
exactly 0, 1, 2. -/
theorem triangle_draw_call :
    (∀ fi : Fin 2,
        (recordedFrame fi).filter isDraw =
          [Cmd.drawIndexedInstanced 3 1 0 0 0]) ∧
      boundIndexValues = [0, 1, 2] := by
  refine ⟨by decide, by decide⟩

/-- Claim C5: the vertex- and index-buffer uploads do copy exactly as
many bytes as their destination resources hold, from the matching source
arrays; but the constant-buffer upload (part_000 line 529) copies
`sizeof(triangle_indices)` = 12 bytes of `triangle_indices` into the
256-byte constant-buffer resource — the copy size differs from the
destination size and the source is not the constant-buffer data. -/
theorem const_buffer_upload_mismatch :
    vertexUpload.copyCount = vertexUpload.destResourceSize ∧
      vertexUpload.source = DataSource.triangleVerts ∧
      indexUpload.copyCount = indexUpload.destResourceSize ∧
      indexUpload.source = DataSource.triangleIndices ∧
      constUpload.copyCount ≠ constUpload.destResourceSize ∧
      constUpload.source ≠ DataSource.constBufferData ∧
      constUpload.destResourceSize = 256 ∧ constUpload.copyCount = 12 := by
  decide

/-- Claim C7: uploading `data` into a freshly committed staging resource
of any size `n ≥ data.length` (in particular sizes up to the 256-byte
constant-buffer alignment boundary and just past it) and reading the
mapped range back before any GPU write yields exactly the original
bytes, and leaves every previously created resource — including any
trailing data beyond another resource's alignment padding — unchanged. -/
theorem staging_upload_roundtrip (st : Store) (data : List Nat) (n r' : Nat)
    (hlen : data.length ≤ n) (hr' : r' < st.length) :
    (readResource
        (writeResource (createCommittedResource st n) st.length n data
          data.length) st.length).take data.length = data ∧
      readResource
          (writeResource (createCommittedResource st n) st.length n data
            data.length) r' =
        readResource st r' := by
  have hcc : createCommittedResource st n = st ++ [List.replicate n 0] := rfl
  have hget : (st ++ [List.replicate n 0])[st.length]? =
      some (List.replicate n 0) :=
    List.getElem?_concat_length st _
  have hw : writeResource (createCommittedResource st n) st.length n data
        data.length =
      (st ++ [List.replicate n 0]).set st.length
        (memcpyS (List.replicate n 0) n data data.length) := by
    rw [hcc]
    simp [writeResource, List.getD_eq_getElem?_getD, hget]
  have hm : memcpyS (List.replicate n 0) n data data.length =
      data ++ (List.replicate n 0).drop data.length := by
    simp [memcpyS, hlen]
  have hlt : st.length < (st ++ [List.replicate n 0]).length := by simp
  constructor
  · rw [hw, hm]
    simp only [readResource, List.getD_eq_getElem?_getD,
      List.getElem?_set_self hlt, Option.getD_some]
    exact List.take_left' rfl
  · rw [hw]
    have hne : st.length ≠ r' := Nat.ne_of_gt hr'
    simp only [readResource, List.getD_eq_getElem?_getD,
      List.getElem?_set_ne hne, List.getElem?_append_left hr']

/-- Witness for `staging_upload_roundtrip` at a concrete input: one
pre-existing resource, a 5-byte payload into a fresh 256-byte resource. -/
theorem staging_upload_roundtrip_witness :
    (List.length [3, 1, 4, 1, 5] ≤ 256 ∧ 0 < List.length ([[9]] : Store)) ∧
      ((readResource
          (writeResource (createCommittedResource [[9]] 256)
            (List.length ([[9]] : Store)) 256 [3, 1, 4, 1, 5]
            (List.length [3, 1, 4, 1, 5]))
          (List.length ([[9]] : Store))).take
          (List.length [3, 1, 4, 1, 5]) = [3, 1, 4, 1, 5] ∧
        readResource
            (writeResource (createCommittedResource [[9]] 256)
              (List.length ([[9]] : Store)) 256 [3, 1, 4, 1, 5]
              (List.length [3, 1, 4, 1, 5])) 0 =
          readResource [[9]] 0) :=
  ⟨⟨by decide, by decide⟩,
    staging_upload_roundtrip [[9]] [3, 1, 4, 1, 5] 256 0 (by decide)
      (by decide)⟩

/-- Claim C9 counterexample: a missing shader file does make `read_file`
print a diagnostic and return size 0 with a null buffer without
aborting, but the resulting empty bytecode is NOT fatal at pipeline
construction: the failing `CreateGraphicsPipelineState` is wrapped in a
`try` whose `catch` prints and falls through, so the process does not
abort there. -/
theorem pipeline_failure_not_fatal :
    read_file none false =
        { size_bytes := 0, data := none, diagnostic := true } ∧
      ¬(pipelineConstructionSite false).fst = true := by
  decide

/-- Claim C9 (amended): for a missing or empty shader file, `read_file`
reports a diagnostic (unless silenced), returns size 0 with a null data
buffer and does not abort; when pipeline construction later consumes the
empty bytecode and fails, the failure is caught and reported and
execution continues past pipeline construction rather than aborting
there. -/
theorem read_file_failure_contract (contents : Option (List Nat))
    (silent : Bool) (h : contents = none ∨ contents = some []) :
    read_file contents silent =
        { size_bytes := 0, data := none, diagnostic := !silent } ∧
      pipelineConstructionSite false = (false, true) := by
  rcases h with h | h <;> subst h <;> exact ⟨rfl, rfl⟩

/-- Witness for `read_file_failure_contract` at the missing-file input
with diagnostics enabled. -/
theorem read_file_failure_contract_witness :
    ((none : Option (List Nat)) = none ∨
        (none : Option (List Nat)) = some []) ∧
      (read_file none false =
          { size_bytes := 0, data := none, diagnostic := !false } ∧
        pipelineConstructionSite false = (false, true)) :=
  ⟨Or.inl rfl, read_file_failure_contract none false (Or.inl rfl)⟩

end HelloTriangle
